import Mathlib

/-!
# Verification of the stock-scanner streaming client

Shallow embedding of the browser client in `app/static/js/main.js` (with its
near-duplicate variant `app/static/main.js`).  The embedding models the DOM
regions the handlers touch as explicit record fields, JavaScript `undefined`
as `Option`, JS string/number truthiness explicitly, and thrown `TypeError`s
as a boolean "threw" flag returned next to the (partially mutated) state,
since DOM mutations are not rolled back by an exception.

The markdown renderer (`marked.parse` / `parseMarkdown`) and the browser's
HTML-to-text extraction (`Element.textContent` of an element whose `innerHTML`
was assigned) are external collaborators; they are passed in as function
parameters `render` and `textOf`.
-/

namespace StockScanner

/-! ## JavaScript-semantics helpers -/

/-- JS `String.prototype.trim`: drop leading whitespace of a character list. -/
def dropLeadingSpaces : List Char → List Char
  | [] => []
  | c :: cs => if c.isWhitespace then dropLeadingSpaces cs else c :: cs

/-- JS `s.trim()`: strip whitespace from both ends. -/
def jsTrim (s : String) : String :=
  String.mk ((dropLeadingSpaces ((dropLeadingSpaces s.data).reverse)).reverse)

/-- JS `String.prototype.split` with a one-character separator. -/
def splitOnChar (sep : Char) : List Char → List (List Char)
  | [] => [[]]
  | c :: cs =>
    let r := splitOnChar sep cs
    if c = sep then [] :: r
    else
      match r with
      | [] => [[c]]
      | h :: t => (c :: h) :: t

/-- A JS number, modeled as an exact (not necessarily reduced) fraction
`num / den` with `den > 0` by construction.  Exact decimals suffice for every
claim; binary-float rounding is irrelevant to all of them.  `NaN` (e.g. a
failed `parseFloat`) is modeled as `none` at each use site. -/
structure JsNum where
  num : Int
  den : Nat
deriving DecidableEq

/-- JS `x === 0`-style falsiness of a number. -/
def JsNum.isZero (x : JsNum) : Bool := x.num = 0

/-- JS `x > 0`. -/
def JsNum.gtZero (x : JsNum) : Bool := decide (0 < x.num)

/-- Multiply a JS number by a natural constant (used for `score * 100`). -/
def JsNum.mulNat (x : JsNum) (c : Nat) : JsNum := ⟨x.num * c, x.den⟩

/-- Embed an integer constant (e.g. the literal `-1`). -/
def JsNum.ofInt (n : Int) : JsNum := ⟨n, 1⟩

/-- JS `x || d` for an optional number (`undefined`, `NaN` and `0` are falsy;
`none` models `undefined`/`NaN`). -/
def numOr (x : Option JsNum) (d : JsNum) : JsNum :=
  match x with
  | some v => if v.isZero then d else v
  | none => d

/-- JS `x || d` for an optional integer count. -/
def intOr (x : Option Int) (d : Int) : Int :=
  match x with
  | some v => if v = 0 then d else v
  | none => d

/-- JS `x || d` for an optional string (`undefined` and `""` are falsy). -/
def strOr (x : Option String) (d : String) : String :=
  match x with
  | some v => if v = "" then d else v
  | none => d

/-- JS string interpolation of a possibly-`undefined` string. -/
def jsUndef (x : Option String) : String :=
  match x with
  | some v => v
  | none => "undefined"

/-- JS truthiness of an optional number (`parseFloat` result; `none` = `NaN`). -/
def numTruthy (x : Option JsNum) : Bool :=
  match x with
  | some v => !v.isZero
  | none => false

/-- JS `x > 0` for a `parseFloat` result (`NaN > 0` is `false`). -/
def numGtZero (x : Option JsNum) : Bool :=
  match x with
  | some v => v.gtZero
  | none => false

/-- Left-pad a string with `'0'` up to width `w`. -/
def padZeros (w : Nat) (s : String) : String :=
  if s.length < w then String.mk (List.replicate (w - s.length) '0') ++ s else s

/-- Decimal string of an integer `n` understood as `n / 10^digits`. -/
def decimalOfScaled (digits : Nat) (n : Int) : String :=
  let sign := if n < 0 then "-" else ""
  let m := n.natAbs
  let p := 10 ^ digits
  if digits = 0 then sign ++ toString m
  else sign ++ toString (m / p) ++ "." ++ padZeros digits (toString (m % p))

/-- JS `Number.prototype.toFixed`: the nearest (ties up) multiple of
`10^-digits`, written with exactly `digits` decimals.  The scaled integer is
`⌊x * 10^digits + 1/2⌋`, computed as a floor division on the fraction. -/
def toFixed (digits : Nat) (x : JsNum) : String :=
  decimalOfScaled digits
    (Int.fdiv (2 * x.num * ((10 : Int) ^ digits) + (x.den : Int)) (2 * (x.den : Int)))

/-- Concatenation of a list of text fragments, in order. -/
def concatAll : List String → String
  | [] => ""
  | f :: fs => f ++ concatAll fs

/-! ## DOM content of a single element

`text s` is the state after `el.textContent = s`; `html s` after
`el.innerHTML = s`.  Reading `textContent` of an `html` node applies the
browser's text extraction, the external parameter `textOf`. -/

inductive NodeContent
  | text (s : String)
  | html (s : String)
deriving DecidableEq

/-- What `el.textContent` reads back, given the HTML-to-text collaborator. -/
def textContentOf (textOf : String → String) : NodeContent → String
  | .text s => s
  | .html s => textOf s

/-! ## Report payloads (`final_result` event data) -/

structure PriceInfo where
  current_price : Option JsNum
  price_change : Option JsNum
deriving DecidableEq

structure TechnicalAnalysis where
  rsi : Option JsNum
  ma_trend : Option String
  macd_signal : Option String
deriving DecidableEq

structure SentimentAnalysis where
  sentiment_trend : Option String
  total_analyzed : Option Int
  confidence_score : Option JsNum
deriving DecidableEq

structure Report where
  stock_code : String
  price_info : Option PriceInfo
  technical_analysis : Option TechnicalAnalysis
  sentiment_analysis : Option SentimentAnalysis
  ai_content : Option String
deriving DecidableEq

/-! ## The single-job results area

`Displays` are the scaffold elements written by `updateNonAIContent`
(they live inside `#resultsContent`; the scaffold template is the one
installed by `showLoading`).  `analysisStatus` is `Option` because the
code guards `document.getElementById('analysisStatus')` with an existence
check. -/

structure Displays where
  stockCodeDisplay : String
  currentPriceDisplay : String
  priceChangeDisplay : String
  rsiDisplay : String
  trendDisplay : String
  macdDisplay : String
  sentimentTrendDisplay : String
  newsCountDisplay : String
  confidenceDisplay : String
  analysisStatus : Option String
deriving DecidableEq

/-- The `#resultsContent` container: the scaffold display fields (if the
scaffold is loaded), the `#aiStreamContent` stream div (if present), the
"generation complete" title flags, and an error panel (if rendered). -/
structure ResultsContent where
  displays : Option Displays
  aiStream : Option NodeContent
  streamTitleDone : Bool
  mainTitleDone : Bool
  errorPanel : Option String
deriving DecidableEq

/-- `handleAIStream` (main.js): lazily create `#aiStreamContent` inside
`#resultsContent`, then append `data.content` (if truthy) to its
`textContent`. -/
def handleAIStream (textOf : String → String) (content : Option String)
    (rc : ResultsContent) : ResultsContent :=
  let rc1 :=
    match rc.aiStream with
    | none => { rc with aiStream := some (NodeContent.text "") }
    | some _ => rc
  match content with
  | none => rc1
  | some s =>
    if s = "" then rc1
    else
      match rc1.aiStream with
      | some c =>
        { rc1 with aiStream := some (NodeContent.text (textContentOf textOf c ++ s)) }
      | none => rc1

/-- The display values `updateNonAIContent` writes, given the previous
displays `d` (only the guarded `analysisStatus` depends on `d`). -/
def mergedDisplays (report : Report) (d : Displays) : Displays :=
  { stockCodeDisplay := "股票代码: " ++ report.stock_code
    currentPriceDisplay :=
      "当前价格: ¥" ++ toFixed 2 (numOr (report.price_info.bind PriceInfo.current_price) (JsNum.ofInt 0))
    priceChangeDisplay :=
      "涨跌幅: " ++ toFixed 2 (numOr (report.price_info.bind PriceInfo.price_change) (JsNum.ofInt 0)) ++ "%"
    rsiDisplay :=
      "RSI: " ++ toFixed 1 (numOr (report.technical_analysis.bind TechnicalAnalysis.rsi) (JsNum.ofInt 0))
    trendDisplay :=
      "趋势: " ++ strOr (report.technical_analysis.bind TechnicalAnalysis.ma_trend) "未知"
    macdDisplay :=
      "MACD: " ++ strOr (report.technical_analysis.bind TechnicalAnalysis.macd_signal) "未知"
    sentimentTrendDisplay :=
      "情绪趋势: " ++ strOr (report.sentiment_analysis.bind SentimentAnalysis.sentiment_trend) "中性"
    newsCountDisplay :=
      "新闻数量: " ++ toString (intOr (report.sentiment_analysis.bind SentimentAnalysis.total_analyzed) 0) ++ " 条"
    confidenceDisplay :=
      "置信度: " ++ toFixed 1 ((numOr (report.sentiment_analysis.bind SentimentAnalysis.confidence_score) (JsNum.ofInt 0)).mulNat 100) ++ "%"
    analysisStatus := d.analysisStatus.map (fun _ => "✅ 流式分析完成") }

/-- `updateNonAIContent` (main.js): write all non-narrative display fields
from the report, substituting the JS `||` fallbacks; finally, if
`report.ai_content` is truthy, overwrite the stream div's `textContent`
with it.  Returns the new state and whether a `TypeError` was thrown
(missing scaffold, or missing stream div under a truthy `ai_content`). -/
def updateNonAIContent (report : Report) (rc : ResultsContent) :
    ResultsContent × Bool :=
  match rc.displays with
  | none => (rc, true)
  | some d =>
    let rc2 := { rc with displays := some (mergedDisplays report d) }
    match report.ai_content with
    | none => (rc2, false)
    | some s =>
      if s = "" then (rc2, false)
      else
        match rc2.aiStream with
        | some _ => ({ rc2 with aiStream := some (NodeContent.text s) }, false)
        | none => (rc2, true)

/-- `displayResults` (main.js): if the stream div exists and its text is
non-blank, mark the titles done, replace the div's content with the
markdown-rendered text, and merge the non-narrative fields; otherwise the
handler returns without doing anything. -/
def displayResults (render textOf : String → String) (report : Report)
    (rc : ResultsContent) : ResultsContent × Bool :=
  match rc.aiStream with
  | none => (rc, false)
  | some c =>
    if jsTrim (textContentOf textOf c) = "" then (rc, false)
    else
      let streamContent := textContentOf textOf c
      let rc1 := { rc with
        streamTitleDone := true
        mainTitleDone := true
        aiStream := some (NodeContent.html (render streamContent)) }
      updateNonAIContent report rc1

/-- Deliver a sequence of `ai_stream` fragments in arrival order. -/
def streamAll (textOf : String → String) (frags : List String)
    (rc : ResultsContent) : ResultsContent :=
  frags.foldl (fun r f => handleAIStream textOf (some f) r) rc

/-! ## Batch mode (`batch_result` events, `showBatchSlot`)

The static page provides ten slot cards `#batchSlot0` … `#batchSlot9`
(`analyzeBatchStocks` resets exactly indices `0..9`).  A slot's rendered
body is modeled structurally: the values interpolated into the
`batchResultsContent` template, plus the tab wiring (first tab active). -/

structure DataQuality where
  financial_indicators_count : Option Int
  total_news_count : Option Int
  analysis_completeness : Option String
deriving DecidableEq

structure BatchReport where
  stock_name : Option String
  stock_code : String
  data_quality : Option DataQuality
  price_info : Option PriceInfo
  technical_analysis : Option TechnicalAnalysis
  sentiment_analysis : Option SentimentAnalysis
  value_prompt : String
  prompt : String
  ai_analysis : String
deriving DecidableEq

/-- JS `count || "--"` written into a count display. -/
def countOrDashes (x : Option Int) : String :=
  match x with
  | some v => if v = 0 then "--" else toString v
  | none => "--"

/-- JS `s || "--"`. -/
def strOrDashes (x : Option String) : String :=
  match x with
  | some v => if v = "" then "--" else v
  | none => "--"

/-- The data interpolated into one slot's `innerHTML` template.  `Option`
fields render as the string `undefined` in the browser when `none`; the
`*_html` fields went through `parseMarkdown` (the `render` parameter). -/
structure SlotContent where
  stock_code : String
  current_price : Option JsNum
  price_change : Option JsNum
  rsi : Option JsNum
  ma_trend : Option String
  macd_signal : Option String
  sentiment_trend : Option String
  total_analyzed : Option Int
  confidence_score : Option JsNum
  value_prompt_html : String
  prompt_html : String
  ai_analysis_html : String
deriving DecidableEq

/-- One batch slot card: visibility, title, the three count displays, the
rendered body (if a result arrived), and which LLM tab is active. -/
structure BatchSlot where
  hidden : Bool
  title : String
  financial : String
  news : String
  completeness : String
  content : Option SlotContent
  activeTab : Nat
deriving DecidableEq

/-- Update one slot of the ten-slot view. -/
def updSlot (slots : Fin 10 → BatchSlot) (i : Fin 10) (f : BatchSlot → BatchSlot) :
    Fin 10 → BatchSlot :=
  Function.update slots i (f (slots i))

/-- `showBatchSlot` (main.js): fill slot `index` from a `batch_result`
payload, statement by statement.  `data_quality`, `price_info` and
`technical_analysis` are accessed without optional chaining, so their
absence throws a `TypeError` mid-way (mutations already made stay);
`sentiment_analysis` is accessed with `?.`.  For an index with no slot
elements (`index ≥ 10`, `getElementById` is `null`), the very first
assignment throws before any mutation.  Returns the slots and whether a
`TypeError` was thrown. -/
def showBatchSlot (render : String → String) (index : Nat) (report : BatchReport)
    (slots : Fin 10 → BatchSlot) : (Fin 10 → BatchSlot) × Bool :=
  if h : index < 10 then
    let i : Fin 10 := ⟨index, h⟩
    let s1 := updSlot slots i (fun s =>
      { s with title := toString (index + 1) ++ ". " ++ jsUndef report.stock_name })
    let s2 := updSlot s1 i (fun s => { s with hidden := false })
    match report.data_quality with
    | none => (s2, true)
    | some dq =>
      let s3 := updSlot s2 i (fun s =>
        { s with
          financial := countOrDashes dq.financial_indicators_count
          news := countOrDashes dq.total_news_count
          completeness := strOrDashes dq.analysis_completeness })
      match report.price_info with
      | none => (s3, true)
      | some pi =>
        match report.technical_analysis with
        | none => (s3, true)
        | some ta =>
          let body : SlotContent :=
            { stock_code := report.stock_code
              current_price := pi.current_price
              price_change := pi.price_change
              rsi := ta.rsi
              ma_trend := ta.ma_trend
              macd_signal := ta.macd_signal
              sentiment_trend := report.sentiment_analysis.bind SentimentAnalysis.sentiment_trend
              total_analyzed := report.sentiment_analysis.bind SentimentAnalysis.total_analyzed
              confidence_score := report.sentiment_analysis.bind SentimentAnalysis.confidence_score
              value_prompt_html := render report.value_prompt
              prompt_html := render report.prompt
              ai_analysis_html := render report.ai_analysis }
          (updSlot s3 i (fun s => { s with content := some body, activeTab := 0 }), false)
  else (slots, true)

/-! ## Whole-client state and the submission / lifecycle handlers -/

/-- The page state the lifecycle handlers touch: the global `isAnalyzing`
flag, the two submit buttons, the status indicator, progress and
"current stock" visibility, the results container, the ten batch slots
(static page elements outside `#resultsContent`), and the log panel as a
list of `(message, type)` entries. -/
structure ClientState where
  isAnalyzing : Bool
  analyzeBtnDisabled : Bool
  batchAnalyzeBtnDisabled : Bool
  systemStatusClass : String
  systemStatusText : String
  singleProgressVisible : Bool
  batchProgressVisible : Bool
  currentStockVisible : Bool
  results : ResultsContent
  slots : Fin 10 → BatchSlot
  logs : List (String × String)

/-- `addLog`: append one `(message, type)` entry to the log panel. -/
def addLogS (st : ClientState) (msg ty : String) : ClientState :=
  { st with logs := st.logs ++ [(msg, ty)] }

/-- The single-result scaffold installed by `showLoading`.  Modeled from the
inline template of the `app/static/main.js` variant (placeholder `--`
displays, an empty `#aiStreamContent` div, no `#analysisStatus` element);
the `js/main.js` variant fetches the equivalent `result_content.html`,
which is not under `src/`. -/
def scaffoldDisplays : Displays :=
  { stockCodeDisplay := "股票代码: --"
    currentPriceDisplay := "当前价格: --"
    priceChangeDisplay := "涨跌幅: --"
    rsiDisplay := "RSI: --"
    trendDisplay := "趋势: --"
    macdDisplay := "MACD: --"
    sentimentTrendDisplay := "情绪趋势: --"
    newsCountDisplay := "新闻数量: --"
    confidenceDisplay := "置信度: --"
    analysisStatus := none }

/-- `#resultsContent` right after `showLoading` (fetch modeled as applied). -/
def scaffoldResults : ResultsContent :=
  { displays := some scaffoldDisplays
    aiStream := some (NodeContent.text "")
    streamTitleDone := false
    mainTitleDone := false
    errorPanel := none }

/-- The values read from the single-analysis form: the raw `#stockCode`
text and the `parseFloat` results of the two numeric inputs (`none` models
`NaN`, e.g. from an empty input). -/
structure SingleInputs where
  stockCode : String
  positionPercent : Option JsNum
  avgPrice : Option JsNum
  enableStreaming : Bool
deriving DecidableEq

/-- The JSON body of `POST /analyze/streaming`. -/
structure SingleRequest where
  stock_code : String
  positionPercent : Option JsNum
  avgPrice : Option JsNum
  enable_streaming : Bool
  client_id : Option String
deriving DecidableEq

/-- The JSON body of `POST /analyze/batch_streaming`. -/
structure BatchRequest where
  stock_codes : List String
  client_id : Option String
deriving DecidableEq

/-- The accepted-submission tail of `analyzeSingleStock` (everything after
the validations and the re-entrancy guard, up to and including issuing the
`fetch`).  The response callback is asynchronous and outside this step. -/
def analyzeSingleStockGo (stockCode : String) (pp ap : Option JsNum) (es : Bool)
    (cid : Option String) (st : ClientState) : ClientState × Option SingleRequest :=
  if st.isAnalyzing then (addLogS st "分析正在进行中，请稍候" "warning", none)
  else
    let st1 := { st with
      isAnalyzing := true
      analyzeBtnDisabled := true
      systemStatusClass := "status-indicator status-analyzing"
      systemStatusText := "分析中" }
    let st2 := addLogS st1 ("🚀 开始流式分析股票: " ++ stockCode) "header"
    let st3 := { st2 with results := scaffoldResults, singleProgressVisible := true }
    (st3, some { stock_code := stockCode, positionPercent := pp, avgPrice := ap,
                 enable_streaming := es, client_id := cid })

/-- `analyzeSingleStock` (js/main.js): trim the stock code, validate the
position/average-price inputs, check the re-entrancy guard, then flip the
UI into the analyzing state and issue the request.  Returns the new state
and the request body (`none` when no request was made). -/
def analyzeSingleStock (inp : SingleInputs) (cid : Option String)
    (st : ClientState) : ClientState × Option SingleRequest :=
  let stockCode := jsTrim inp.stockCode
  if stockCode = "" then (addLogS st "请输入股票代码" "warning", none)
  else if numTruthy inp.positionPercent = false then
    analyzeSingleStockGo stockCode (some (JsNum.ofInt 0)) (some (JsNum.ofInt (-1)))
      inp.enableStreaming cid (addLogS st "默认未买入" "info")
  else if numGtZero inp.positionPercent && !numTruthy inp.avgPrice then
    (addLogS st "请输入持仓均价" "warning", none)
  else
    analyzeSingleStockGo stockCode inp.positionPercent inp.avgPrice
      inp.enableStreaming cid st

/-- JS `stockListText.split('\n').map(s => s.trim()).filter(s => s)`. -/
def parseStockList (t : String) : List String :=
  ((splitOnChar '\n' t.data).map (fun l => jsTrim (String.mk l))).filter
    (fun s => !(s == ""))

/-- `analyzeBatchStocks` (js/main.js): validate the list, check the
re-entrancy guard, hide all ten batch slots, flip the UI into the batch
analyzing state, and issue the request. -/
def analyzeBatchStocks (raw : String) (cid : Option String)
    (st : ClientState) : ClientState × Option BatchRequest :=
  let t := jsTrim raw
  if t = "" then (addLogS st "请输入股票代码列表" "warning", none)
  else if st.isAnalyzing then (addLogS st "分析正在进行中，请稍候" "warning", none)
  else
    let stockList := parseStockList t
    if stockList = [] then (addLogS st "股票代码列表为空" "warning", none)
    else
      let st1 := { st with slots := fun i => { st.slots i with hidden := true } }
      let st2 := { st1 with
        isAnalyzing := true
        batchAnalyzeBtnDisabled := true
        systemStatusClass := "status-indicator status-analyzing"
        systemStatusText := "批量分析中" }
      let st3 := addLogS st2 ("📊 开始流式批量分析 " ++ toString stockList.length ++ " 只股票") "header"
      let st4 := { st3 with results := scaffoldResults, batchProgressVisible := true,
                            currentStockVisible := true }
      (st4, some { stock_codes := stockList, client_id := cid })

/-- `onAnalysisError`: reset the lifecycle flags and affordances, and
replace the whole `#resultsContent` with the error panel (destroying the
scaffold displays and any `#aiStreamContent` div). -/
def onAnalysisError (err : Option String) (st : ClientState) : ClientState :=
  let st1 := { st with
    isAnalyzing := false
    analyzeBtnDisabled := false
    batchAnalyzeBtnDisabled := false
    systemStatusClass := "status-indicator status-error"
    systemStatusText := "分析失败"
    singleProgressVisible := false
    batchProgressVisible := false
    currentStockVisible := false
    results := { displays := none, aiStream := none, streamTitleDone := false,
                 mainTitleDone := false, errorPanel := some (strOr err "未知错误") } }
  addLogS st1 ("❌ 分析失败: " ++ jsUndef err) "error"

/-! ## Connection manager (`initSSE` and the reconnect timer)

`EventSource.readyState` is CONNECTING / OPEN / CLOSED; `pendingReconnects`
counts the `setTimeout` reconnect callbacks currently scheduled (the code
keeps no handle on them and no guard flag, so each `onerror` adds one). -/

inductive ChannelState
  | connecting
  | opened
  | closed
deriving DecidableEq

structure ConnState where
  sseConnection : Option ChannelState
  pendingReconnects : Nat
  statusConnected : Bool
  clientIdSerial : Nat
  logs : List (String × String)
deriving DecidableEq

/-- `initSSE`: close any existing connection, generate a fresh client id
(modeled as a serial number; the real id is random-plus-timestamp), and
construct a new `EventSource`, initially CONNECTING. -/
def initSSE (st : ConnState) : ConnState :=
  { st with
    sseConnection := some ChannelState.connecting
    clientIdSerial := st.clientIdSerial + 1
    logs := st.logs ++ [("正在建立SSE连接...", "info")] }

/-- The `onopen` callback: success log and connected indicator. -/
def onSSEOpen (st : ConnState) : ConnState :=
  { st with
    sseConnection := st.sseConnection.map (fun _ => ChannelState.opened)
    statusConnected := true
    logs := st.logs ++ [("SSE连接已建立", "success")] }

/-- The `onerror` callback: error log, disconnected indicator, and one more
`setTimeout(…, 3000)` reconnect callback scheduled — unconditionally. -/
def onSSEError (st : ConnState) : ConnState :=
  { st with
    statusConnected := false
    pendingReconnects := st.pendingReconnects + 1
    logs := st.logs ++ [("SSE连接错误", "error")] }

/-- One scheduled reconnect callback fires: it re-runs `initSSE` only if
the connection is `null` or its `readyState` is CLOSED at fire time. -/
def fireReconnectTimer (st : ConnState) : ConnState :=
  if st.pendingReconnects = 0 then st
  else
    let st1 := { st with pendingReconnects := st.pendingReconnects - 1 }
    match st1.sseConnection with
    | none => initSSE { st1 with logs := st1.logs ++ [("尝试重新连接SSE...", "warning")] }
    | some ChannelState.closed =>
      initSSE { st1 with logs := st1.logs ++ [("尝试重新连接SSE...", "warning")] }
    | some _ => st1

/-! ## Concrete instantiations used by examples

The markdown renderer and HTML text extraction are external; the concrete
stand-ins below agree with the real collaborators (`marked.parse`, DOM
`textContent`) on every input they are applied to: `marked` renders a bare
line as a paragraph and `# A` as a heading whose text content is `A`. -/

def renderEx (s : String) : String :=
  if s = "# A" then "<h1>A</h1>" else "<p>" ++ s ++ "</p>"

def textOfEx (s : String) : String :=
  if s = "<h1>A</h1>" then "A" else s

/-- A report carrying only a stock code. -/
def emptyReport : Report :=
  { stock_code := "", price_info := none, technical_analysis := none,
    sentiment_analysis := none, ai_content := none }

/-- The spec's worked example: `final_result` with `ai_content: "AB"`. -/
def reportAB : Report :=
  { emptyReport with stock_code := "000001", ai_content := some "AB" }

/-- A final report without an `ai_content` field. -/
def reportNoAI : Report := { emptyReport with stock_code := "000001" }

/-- The spec's fallback example: `price_info` present, no
`technical_analysis`. -/
def report600000 : Report :=
  { stock_code := "600000"
    price_info := some { current_price := some ⟨105, 10⟩, price_change := some ⟨-123, 100⟩ }
    technical_analysis := none
    sentiment_analysis := none
    ai_content := none }

/-- A state whose stream buffer holds the markdown source `# A`. -/
def rcSharpA : ResultsContent :=
  { scaffoldResults with aiStream := some (NodeContent.text "# A") }

def emptySlot : BatchSlot :=
  { hidden := true, title := "", financial := "--", news := "--",
    completeness := "--", content := none, activeTab := 0 }

def slots0 : Fin 10 → BatchSlot := fun _ => emptySlot

/-- A complete batch payload. -/
def batchReportFull : BatchReport :=
  { stock_name := some "平安银行"
    stock_code := "000001"
    data_quality := some { financial_indicators_count := some 12, total_news_count := some 30,
                           analysis_completeness := some "完整" }
    price_info := some { current_price := some ⟨1234, 100⟩, price_change := some ⟨56, 100⟩ }
    technical_analysis := some { rsi := some ⟨55, 1⟩, ma_trend := some "上升",
                                 macd_signal := some "买入" }
    sentiment_analysis := some { sentiment_trend := some "积极", total_analyzed := some 30,
                                 confidence_score := some ⟨8, 10⟩ }
    value_prompt := "vp", prompt := "p", ai_analysis := "分析" }

/-- A batch payload with `price_info` and `data_quality` but no
`technical_analysis` (the spec's missing-sub-object example). -/
def batchReportNoTech : BatchReport :=
  { stock_name := some "浦发银行"
    stock_code := "600000"
    data_quality := some { financial_indicators_count := some 10, total_news_count := some 5,
                           analysis_completeness := some "完整" }
    price_info := some { current_price := some ⟨105, 10⟩, price_change := some ⟨-123, 100⟩ }
    technical_analysis := none
    sentiment_analysis := none
    value_prompt := "", prompt := "", ai_analysis := "" }

/-- An idle page right after load. -/
def initialState : ClientState :=
  { isAnalyzing := false
    analyzeBtnDisabled := false
    batchAnalyzeBtnDisabled := false
    systemStatusClass := "status-indicator status-ready"
    systemStatusText := "系统就绪"
    singleProgressVisible := false
    batchProgressVisible := false
    currentStockVisible := false
    results := { displays := none, aiStream := none, streamTitleDone := false,
                 mainTitleDone := false, errorPanel := none }
    slots := slots0
    logs := [] }

/-- A page with an analysis in flight. -/
def busyState : ClientState := { initialState with isAnalyzing := true }

/-- A well-formed single submission (no position held). -/
def inpNoPosition : SingleInputs :=
  { stockCode := "000001", positionPercent := none, avgPrice := none, enableStreaming := true }

/-- A submission with a positive position and an empty average-price input
(`parseFloat("")` is `NaN`). -/
def inpPositionNoAvg : SingleInputs :=
  { stockCode := "000001", positionPercent := some ⟨50, 1⟩, avgPrice := none,
    enableStreaming := true }

/-- A submission attempt with an empty stock-code input. -/
def inpEmptyCode : SingleInputs :=
  { stockCode := "", positionPercent := none, avgPrice := none, enableStreaming := false }

/-- An established, open connection. -/
def connOpen : ConnState :=
  { sseConnection := some ChannelState.opened, pendingReconnects := 0,
    statusConnected := true, clientIdSerial := 1, logs := [] }

/-! ## Helper lemmas -/

theorem handleAIStream_text (textOf : String → String) (f s : String)
    (rc : ResultsContent) (h : rc.aiStream = some (NodeContent.text s)) :
    (handleAIStream textOf (some f) rc).aiStream = some (NodeContent.text (s ++ f)) := by
  unfold handleAIStream
  by_cases hf : f = ""
  · subst hf
    simp [h, String.append_empty]
  · simp [h, hf, textContentOf]

theorem handleAIStream_create (textOf : String → String) (f : String)
    (rc : ResultsContent) (h : rc.aiStream = none) :
    (handleAIStream textOf (some f) rc).aiStream = some (NodeContent.text f) := by
  unfold handleAIStream
  by_cases hf : f = ""
  · subst hf
    simp [h]
  · simp [h, hf, textContentOf, String.empty_append]

theorem streamAll_text (textOf : String → String) (frags : List String) :
    ∀ (rc : ResultsContent) (s : String), rc.aiStream = some (NodeContent.text s) →
      (streamAll textOf frags rc).aiStream = some (NodeContent.text (s ++ concatAll frags)) := by
  induction frags with
  | nil =>
    intro rc s h
    simpa [streamAll, concatAll, String.append_empty] using h
  | cons f fs ih =>
    intro rc s h
    have h2 := ih (handleAIStream textOf (some f) rc) (s ++ f)
      (handleAIStream_text textOf f s rc h)
    simpa [streamAll, concatAll, String.append_assoc] using h2

theorem updateNonAIContent_aiStream_falsy (report : Report) (rc : ResultsContent)
    (h : report.ai_content = none ∨ report.ai_content = some "") :
    ((updateNonAIContent report rc).1).aiStream = rc.aiStream := by
  unfold updateNonAIContent
  rcases h with h | h <;> cases hd : rc.displays <;> simp [h]

theorem updateNonAIContent_truthy (report : Report) (rc : ResultsContent) (s : String)
    (d : Displays) (c : NodeContent)
    (hai : report.ai_content = some s) (hs : s ≠ "")
    (hd : rc.displays = some d) (hc : rc.aiStream = some c) :
    updateNonAIContent report rc =
      ({ rc with displays := some (mergedDisplays report d),
                 aiStream := some (NodeContent.text s) }, false) := by
  unfold updateNonAIContent
  rw [hd]
  simp [hai, hs, hc]

/-! ## Claim C3 -/

/-- C3 (counterexample): a `final_result` processed on an empty stream
buffer is a complete no-op — it does not throw, but contrary to the claim
it does not update the non-narrative display fields either: the stock-code
display still shows the placeholder, not the report's value. -/
theorem c3_counterexample :
    displayResults renderEx textOfEx report600000 scaffoldResults = (scaffoldResults, false) ∧
    scaffoldResults.displays.map Displays.stockCodeDisplay ≠
      some ("股票代码: " ++ report600000.stock_code) := by
  decide

/-- C3 (amended): a `final_result` received with zero accumulated
`ai_stream` fragments (stream div absent, or its text blank) does not
throw, but it is a complete no-op: `displayResults` returns without
touching any display field. -/
theorem c3_empty_finalize_noop (render textOf : String → String) (report : Report)
    (rc : ResultsContent)
    (h : rc.aiStream = none ∨
      ∃ c, rc.aiStream = some c ∧ jsTrim (textContentOf textOf c) = "") :
    displayResults render textOf report rc = (rc, false) := by
  unfold displayResults
  rcases h with h | ⟨c, hc, hb⟩
  · rw [h]
  · rw [hc]
    simp [hb]

/-- C3 (witness): the no-op theorem applied to the freshly loaded scaffold
and the spec's example report. -/
theorem c3_witness :
    (scaffoldResults.aiStream = none ∨
      ∃ c, scaffoldResults.aiStream = some c ∧ jsTrim (textContentOf textOfEx c) = "") ∧
    displayResults renderEx textOfEx report600000 scaffoldResults = (scaffoldResults, false) :=
  ⟨Or.inr ⟨NodeContent.text "", by decide, by decide⟩,
   c3_empty_finalize_noop renderEx textOfEx report600000 scaffoldResults
     (Or.inr ⟨NodeContent.text "", by decide, by decide⟩)⟩

/-! ## Claim C9 -/

/-- C9: `onAnalysisError` replaces the whole results container with the
error panel — the stream div and the scaffold displays are gone, the error
panel holds the event's message (or the default) — and the submission
controls are re-enabled with `isAnalyzing` reset to `false`. -/
theorem c9_error_resets (err : Option String) (st : ClientState) :
    (onAnalysisError err st).results.aiStream = none ∧
    (onAnalysisError err st).results.displays = none ∧
    (onAnalysisError err st).results.errorPanel = some (strOr err "未知错误") ∧
    (onAnalysisError err st).isAnalyzing = false ∧
    (onAnalysisError err st).analyzeBtnDisabled = false ∧
    (onAnalysisError err st).batchAnalyzeBtnDisabled = false :=
  ⟨rfl, rfl, rfl, rfl, rfl, rfl⟩

/-! ## Claim C5 -/

/-- C5 (counterexample): two channel errors with no reconnect in between
leave two reconnect timers pending — the code schedules a fresh
`setTimeout` on every `onerror`, contrary to "no second overlapping
reconnect timer is scheduled". -/
theorem c5_counterexample :
    (onSSEError (onSSEError connOpen)).pendingReconnects = 2 := by
  decide

/-- C5 (amended): every channel error schedules one more reconnect timer
(overlapping timers do pile up), but a firing timer is guarded at fire
time: if the channel is CONNECTING or OPEN it only expires, performing no
reconnect (connection, client id and log untouched). -/
theorem c5_reconnect_guard (st : ConnState)
    (h : st.sseConnection = some ChannelState.connecting ∨
      st.sseConnection = some ChannelState.opened) :
    (onSSEError st).pendingReconnects = st.pendingReconnects + 1 ∧
    (fireReconnectTimer st).sseConnection = st.sseConnection ∧
    (fireReconnectTimer st).clientIdSerial = st.clientIdSerial ∧
    (fireReconnectTimer st).logs = st.logs := by
  refine ⟨rfl, ?_, ?_, ?_⟩ <;>
    · unfold fireReconnectTimer
      by_cases hp : st.pendingReconnects = 0
      · simp [hp]
      · rcases h with h | h <;> simp [hp, h]

/-- C5 (witness): the guard theorem applied to an open connection with one
pending timer. -/
theorem c5_witness :
    ({ connOpen with pendingReconnects := 1 } : ConnState).sseConnection
        = some ChannelState.opened ∧
    (onSSEError { connOpen with pendingReconnects := 1 }).pendingReconnects = 2 ∧
    (fireReconnectTimer { connOpen with pendingReconnects := 1 }).sseConnection
        = some ChannelState.opened :=
  ⟨by decide, (c5_reconnect_guard { connOpen with pendingReconnects := 1 }
      (Or.inr (by decide))).1,
    by
      have h := (c5_reconnect_guard { connOpen with pendingReconnects := 1 }
        (Or.inr (by decide))).2.1
      rw [h]
      decide⟩

/-! ## Claim C6 -/

/-- C6: a `batch_result` for slot `index` leaves every other slot exactly
as it was — visibility, title, counts, content and tab state — even when
the payload makes the handler throw part-way. -/
theorem c6_slot_frame (render : String → String) (index : Nat) (report : BatchReport)
    (slots : Fin 10 → BatchSlot) (k : Fin 10) (hk : (k : Nat) ≠ index) :
    ((showBatchSlot render index report slots).1) k = slots k := by
  unfold showBatchSlot
  by_cases h : index < 10
  · have hki : k ≠ (⟨index, h⟩ : Fin 10) := by
      intro e
      exact hk (by rw [e])
    obtain ⟨sn, sc, dq, pi, ta, sa, vp, pr, aa⟩ := report
    cases dq <;> cases pi <;> cases ta <;>
      simp [h, updSlot, Function.update_noteq hki]
  · simp [h]

/-- C6 (witness): slot 1 is untouched by a result for slot 0. -/
theorem c6_witness :
    ((1 : Fin 10) : Nat) ≠ 0 ∧
    ((showBatchSlot renderEx 0 batchReportFull slots0).1) 1 = slots0 1 :=
  ⟨by decide, c6_slot_frame renderEx 0 batchReportFull slots0 1 (by decide)⟩

/-! ## Claim C10 -/

/-- C10: an accepted batch submission issues exactly the parsed list as the
request and hides all ten slot containers `0..9`; and a `batch_result`
whose index is outside `0..9` has no slot elements to target — the handler
throws on the first assignment and mutates nothing. -/
theorem c10_batch_reset_and_range (raw : String) (cid : Option String) (st : ClientState)
    (hidle : st.isAnalyzing = false) (ht : jsTrim raw ≠ "")
    (hl : parseStockList (jsTrim raw) ≠ [])
    (render : String → String) (idx : Nat) (report : BatchReport)
    (slots : Fin 10 → BatchSlot) (hidx : 10 ≤ idx) :
    (analyzeBatchStocks raw cid st).2 =
      some { stock_codes := parseStockList (jsTrim raw), client_id := cid } ∧
    (∀ i : Fin 10, ((analyzeBatchStocks raw cid st).1.slots i).hidden = true) ∧
    showBatchSlot render idx report slots = (slots, true) := by
  refine ⟨?_, ?_, ?_⟩
  · unfold analyzeBatchStocks
    simp [ht, hidle, hl]
  · intro i
    unfold analyzeBatchStocks
    simp [ht, hidle, hl, addLogS]
  · unfold showBatchSlot
    rw [dif_neg (by omega)]

/-! ## Claim C7 -/

/-- C7 (counterexample): on the batch path, the spec's example report —
`price_info` present, no `technical_analysis` — makes `showBatchSlot`
throw a `TypeError` instead of rendering the "unknown" fallback
(`report.technical_analysis.rsi` is accessed without optional chaining). -/
theorem c7_counterexample :
    (showBatchSlot renderEx 0 batchReportNoTech slots0).2 = true := by
  decide

/-- C7 (amended): on the single-job path, `updateNonAIContent` tolerates a
missing `technical_analysis`: it does not throw (given the scaffold is
present and the report carries no truthy `ai_content` or the stream div
exists) and renders the defined fallbacks — the `未知` ("unknown") trend
and MACD texts and `RSI: 0.0`; on the batch path `showBatchSlot` throws
when `technical_analysis` is missing. -/
theorem c7_fallbacks_single_not_batch (report : Report) (rc : ResultsContent)
    (breport : BatchReport) (slots : Fin 10 → BatchSlot)
    (render : String → String) (index : Nat) (hix : index < 10)
    (hdisp : rc.displays.isSome = true)
    (hai : report.ai_content = none ∨ report.ai_content = some "" ∨ rc.aiStream.isSome = true)
    (htech : report.technical_analysis = none)
    (hbdq : breport.data_quality.isSome = true)
    (hbpi : breport.price_info.isSome = true)
    (hbtech : breport.technical_analysis = none) :
    (updateNonAIContent report rc).2 = false ∧
    ((updateNonAIContent report rc).1).displays.map Displays.trendDisplay = some "趋势: 未知" ∧
    ((updateNonAIContent report rc).1).displays.map Displays.macdDisplay = some "MACD: 未知" ∧
    ((updateNonAIContent report rc).1).displays.map Displays.rsiDisplay = some "RSI: 0.0" ∧
    (showBatchSlot render index breport slots).2 = true := by
  obtain ⟨d, hd⟩ := Option.isSome_iff_exists.mp hdisp
  have hmerged : ((updateNonAIContent report rc).1).displays = some (mergedDisplays report d) := by
    unfold updateNonAIContent
    rw [hd]
    cases hac : report.ai_content with
    | none => rfl
    | some s =>
      by_cases hse : s = ""
      · simp [hse]
      · cases hcs : rc.aiStream with
        | none => simp [hse]
        | some c => simp [hse]
  have hsnd : (updateNonAIContent report rc).2 = false := by
    unfold updateNonAIContent
    rw [hd]
    rcases hai with h | h | h
    · rw [h]
    · rw [h]
      simp
    · obtain ⟨c, hcs⟩ := Option.isSome_iff_exists.mp h
      cases hac : report.ai_content with
      | none => rfl
      | some s =>
        by_cases hse : s = ""
        · simp [hse]
        · simp [hse, hcs]
  have hbatch : (showBatchSlot render index breport slots).2 = true := by
    obtain ⟨dq, hdq⟩ := Option.isSome_iff_exists.mp hbdq
    obtain ⟨pi, hpi⟩ := Option.isSome_iff_exists.mp hbpi
    unfold showBatchSlot
    simp [hix, hdq, hpi, hbtech]
  refine ⟨hsnd, ?_, ?_, ?_, hbatch⟩ <;>
    · rw [hmerged]
      simp only [Option.map, mergedDisplays]
      rw [htech]
      decide

/-- C7 (witness): the spec's `600000` report on the loaded scaffold, and
its batch counterpart on slot 0. -/
theorem c7_witness :
    scaffoldResults.displays.isSome = true ∧
    report600000.ai_content = none ∧
    report600000.technical_analysis = none ∧
    batchReportNoTech.data_quality.isSome = true ∧
    batchReportNoTech.price_info.isSome = true ∧
    batchReportNoTech.technical_analysis = none ∧
    ((updateNonAIContent report600000 scaffoldResults).2 = false ∧
      ((updateNonAIContent report600000 scaffoldResults).1).displays.map Displays.trendDisplay = some "趋势: 未知" ∧
      ((updateNonAIContent report600000 scaffoldResults).1).displays.map Displays.macdDisplay = some "MACD: 未知" ∧
      ((updateNonAIContent report600000 scaffoldResults).1).displays.map Displays.rsiDisplay = some "RSI: 0.0" ∧
      (showBatchSlot renderEx 0 batchReportNoTech slots0).2 = true) :=
  ⟨by decide, by decide, by decide, by decide, by decide, by decide,
    c7_fallbacks_single_not_batch report600000 scaffoldResults batchReportNoTech slots0
      renderEx 0 (by decide) (by decide) (Or.inl (by decide)) (by decide)
      (by decide) (by decide) (by decide)⟩

/-! ## Claim C1 -/

/-- C1 (counterexample): the spec's own worked sequence — fragments `A`,
`B`, then `final_result` with `ai_content: "AB"` — leaves the narrative
container holding the raw text `AB` (the `ai_content` branch of
`updateNonAIContent` overwrites the freshly rendered HTML with
`textContent`), not `render("AB")` as the claim requires. -/
theorem c1_counterexample :
    ((displayResults renderEx textOfEx reportAB
        (streamAll textOfEx ["A", "B"] scaffoldResults)).1).aiStream
      = some (NodeContent.text "AB") ∧
    ((displayResults renderEx textOfEx reportAB
        (streamAll textOfEx ["A", "B"] scaffoldResults)).1).aiStream
      ≠ some (NodeContent.html (renderEx (concatAll ["A", "B"]))) := by
  decide

/-- C1 (amended): for fragments delivered in order into a fresh (or empty)
stream buffer, followed by one `final_result` whose report has no truthy
`ai_content`, and whose concatenation is not blank, the narrative
container ends up holding exactly the markdown-rendered concatenation —
no fragment dropped, duplicated or reordered.  (A truthy `ai_content`
overwrites the rendering — see the counterexample — and a blank
concatenation makes the finalize a no-op.) -/
theorem c1_stream_concat_render (render textOf : String → String) (frags : List String)
    (report : Report) (rc : ResultsContent)
    (hbuf : rc.aiStream = none ∨ rc.aiStream = some (NodeContent.text ""))
    (hai : report.ai_content = none ∨ report.ai_content = some "")
    (hnb : jsTrim (concatAll frags) ≠ "") :
    ((displayResults render textOf report (streamAll textOf frags rc)).1).aiStream
      = some (NodeContent.html (render (concatAll frags))) := by
  have hstream : (streamAll textOf frags rc).aiStream
      = some (NodeContent.text (concatAll frags)) := by
    rcases hbuf with hb | hb
    · cases frags with
      | nil => exact absurd (by decide) hnb
      | cons f fs =>
        have h1 := handleAIStream_create textOf f rc hb
        have h2 := streamAll_text textOf fs (handleAIStream textOf (some f) rc) f h1
        simpa [streamAll, concatAll] using h2
    · have h2 := streamAll_text textOf frags rc "" hb
      simpa [String.empty_append] using h2
  have hd : displayResults render textOf report (streamAll textOf frags rc)
      = updateNonAIContent report
        { streamAll textOf frags rc with
          streamTitleDone := true
          mainTitleDone := true
          aiStream := some (NodeContent.html (render (concatAll frags))) } := by
    unfold displayResults
    rw [hstream]
    simp [textContentOf, hnb]
  rw [hd, updateNonAIContent_aiStream_falsy report _ hai]

/-- C1 (witness): fragments `A`, `B` into the fresh scaffold, finalized by
a report without `ai_content`. -/
theorem c1_witness :
    (scaffoldResults.aiStream = none ∨ scaffoldResults.aiStream = some (NodeContent.text "")) ∧
    (reportNoAI.ai_content = none ∨ reportNoAI.ai_content = some "") ∧
    jsTrim (concatAll ["A", "B"]) ≠ "" ∧
    ((displayResults renderEx textOfEx reportNoAI
        (streamAll textOfEx ["A", "B"] scaffoldResults)).1).aiStream
      = some (NodeContent.html (renderEx (concatAll ["A", "B"]))) :=
  ⟨Or.inr (by decide), Or.inl (by decide), by decide,
    c1_stream_concat_render renderEx textOfEx ["A", "B"] reportNoAI scaffoldResults
      (Or.inr (by decide)) (Or.inl (by decide)) (by decide)⟩

/-! ## Claim C2 -/

/-- C2 (counterexample): when the report has no truthy `ai_content`, a
second `final_result` re-renders the *text extraction* of the already
rendered HTML: a buffer holding `# A` is first rendered to `<h1>A</h1>`,
and the repeat renders `A` to `<p>A</p>` — the narrative content changes,
so finalization is not idempotent as claimed. -/
theorem c2_counterexample :
    ((displayResults renderEx textOfEx reportNoAI
        ((displayResults renderEx textOfEx reportNoAI rcSharpA).1)).1).aiStream
      ≠ ((displayResults renderEx textOfEx reportNoAI rcSharpA).1).aiStream := by
  decide

/-- C2 (amended): with the scaffold present, finalization *is* idempotent
on the narrative content whenever the report carries a truthy
`ai_content`: each pass ends by overwriting the container with the same
`ai_content` text, so a repeated `final_result` leaves it unchanged. -/
theorem c2_finalize_idempotent_with_ai (render textOf : String → String) (report : Report)
    (rc : ResultsContent) (s : String)
    (hai : report.ai_content = some s) (hs : s ≠ "") (hdisp : rc.displays.isSome = true) :
    ((displayResults render textOf report ((displayResults render textOf report rc).1)).1).aiStream
      = ((displayResults render textOf report rc).1).aiStream := by
  obtain ⟨d, hd⟩ := Option.isSome_iff_exists.mp hdisp
  cases hc : rc.aiStream with
  | none =>
    have h1 : displayResults render textOf report rc = (rc, false) := by
      unfold displayResults
      rw [hc]
    rw [h1]
    show (displayResults render textOf report rc).1.aiStream = rc.aiStream
    rw [h1]
  | some c =>
    by_cases hb : jsTrim (textContentOf textOf c) = ""
    · have h1 : displayResults render textOf report rc = (rc, false) := by
        unfold displayResults
        rw [hc]
        simp [hb]
      rw [h1]
      show (displayResults render textOf report rc).1.aiStream = rc.aiStream
      rw [h1]
    · have h1 : displayResults render textOf report rc
          = updateNonAIContent report
            { rc with streamTitleDone := true, mainTitleDone := true,
                      aiStream := some (NodeContent.html (render (textContentOf textOf c))) } := by
        unfold displayResults
        rw [hc]
        simp [hb]
      have h2 := updateNonAIContent_truthy report
        { rc with streamTitleDone := true, mainTitleDone := true,
                  aiStream := some (NodeContent.html (render (textContentOf textOf c))) }
        s d (NodeContent.html (render (textContentOf textOf c))) hai hs (by simpa using hd) rfl
      have h2' : (displayResults render textOf report rc).1
          = { rc with displays := some (mergedDisplays report d),
                      streamTitleDone := true, mainTitleDone := true,
                      aiStream := some (NodeContent.text s) } := by
        rw [h1, h2]
      rw [h2']
      by_cases hbs : jsTrim s = ""
      · have h3 : displayResults render textOf report
            ({ rc with displays := some (mergedDisplays report d),
                       streamTitleDone := true, mainTitleDone := true,
                       aiStream := some (NodeContent.text s) } : ResultsContent)
            = ({ rc with displays := some (mergedDisplays report d),
                         streamTitleDone := true, mainTitleDone := true,
                         aiStream := some (NodeContent.text s) }, false) := by
          unfold displayResults
          simp [textContentOf, hbs]
        rw [h3]
      · have h3 : displayResults render textOf report
            ({ rc with displays := some (mergedDisplays report d),
                       streamTitleDone := true, mainTitleDone := true,
                       aiStream := some (NodeContent.text s) } : ResultsContent)
            = updateNonAIContent report
              { rc with displays := some (mergedDisplays report d),
                        streamTitleDone := true, mainTitleDone := true,
                        aiStream := some (NodeContent.html (render s)) } := by
          unfold displayResults
          simp [textContentOf, hbs]
        have h4 := updateNonAIContent_truthy report
          { rc with displays := some (mergedDisplays report d),
                    streamTitleDone := true, mainTitleDone := true,
                    aiStream := some (NodeContent.html (render s)) }
          s (mergedDisplays report d) (NodeContent.html (render s)) hai hs rfl rfl
        rw [h3, h4]

/-- C2 (witness): the idempotence theorem at the spec's `AB` example. -/
theorem c2_witness :
    reportAB.ai_content = some "AB" ∧ "AB" ≠ "" ∧
    scaffoldResults.displays.isSome = true ∧
    ((displayResults renderEx textOfEx reportAB
        ((displayResults renderEx textOfEx reportAB scaffoldResults).1)).1).aiStream
      = ((displayResults renderEx textOfEx reportAB scaffoldResults).1).aiStream :=
  ⟨by decide, by decide, by decide,
    c2_finalize_idempotent_with_ai renderEx textOfEx reportAB scaffoldResults "AB"
      (by decide) (by decide) (by decide)⟩

/-- C10 (witness): a two-stock batch from the idle page, and an out-of-range
index 12. -/
theorem c10_witness :
    initialState.isAnalyzing = false ∧
    jsTrim "000001\n000002" ≠ "" ∧
    parseStockList (jsTrim "000001\n000002") ≠ [] ∧
    (analyzeBatchStocks "000001\n000002" none initialState).2 =
      some { stock_codes := parseStockList (jsTrim "000001\n000002"), client_id := none } ∧
    (∀ i : Fin 10, ((analyzeBatchStocks "000001\n000002" none initialState).1.slots i).hidden = true) ∧
    showBatchSlot renderEx 12 batchReportFull slots0 = (slots0, true) :=
  ⟨by decide, by decide, by decide,
    (c10_batch_reset_and_range "000001\n000002" none initialState (by decide) (by decide)
      (by decide) renderEx 12 batchReportFull slots0 (by decide)).1,
    (c10_batch_reset_and_range "000001\n000002" none initialState (by decide) (by decide)
      (by decide) renderEx 12 batchReportFull slots0 (by decide)).2.1,
    (c10_batch_reset_and_range "000001\n000002" none initialState (by decide) (by decide)
      (by decide) renderEx 12 batchReportFull slots0 (by decide)).2.2⟩

/-! ## Claim C4 -/

/-- C4 (counterexample): a submission attempted while `isAnalyzing` is set
but with an empty stock-code input is rejected by the input validation —
which runs *before* the re-entrancy guard — so no busy warning is logged,
contrary to the claim that every duplicate submission logs one. -/
theorem c4_counterexample :
    (analyzeSingleStock inpEmptyCode none busyState).2 = none ∧
    ("分析正在进行中，请稍候", "warning") ∉ (analyzeSingleStock inpEmptyCode none busyState).1.logs := by
  decide

/-- C4 (amended): while an analysis is in flight, any further submission —
single or batch — issues no request and changes nothing but the log panel;
the busy warning is logged provided the submission passes the input
validations, which run before the guard (an invalid duplicate submission
logs its validation warning instead). -/
theorem c4_busy_guard (inp : SingleInputs) (raw : String) (cid : Option String)
    (st : ClientState) (hbusy : st.isAnalyzing = true) :
    (analyzeSingleStock inp cid st).2 = none ∧
    (∃ l, (analyzeSingleStock inp cid st).1 = { st with logs := st.logs ++ l }) ∧
    (jsTrim inp.stockCode ≠ "" →
      (numTruthy inp.positionPercent = false ∨ numGtZero inp.positionPercent = false ∨
        numTruthy inp.avgPrice = true) →
      ("分析正在进行中，请稍候", "warning") ∈ (analyzeSingleStock inp cid st).1.logs) ∧
    (analyzeBatchStocks raw cid st).2 = none ∧
    (∃ l, (analyzeBatchStocks raw cid st).1 = { st with logs := st.logs ++ l }) ∧
    (jsTrim raw ≠ "" →
      ("分析正在进行中，请稍候", "warning") ∈ (analyzeBatchStocks raw cid st).1.logs) := by
  have hbatch2 : (analyzeBatchStocks raw cid st).2 = none := by
    unfold analyzeBatchStocks
    by_cases h1 : jsTrim raw = "" <;> simp [h1, hbusy]
  have hbatch1 : ∃ l, (analyzeBatchStocks raw cid st).1 = { st with logs := st.logs ++ l } := by
    unfold analyzeBatchStocks
    by_cases h1 : jsTrim raw = ""
    · exact ⟨[("请输入股票代码列表", "warning")], by simp [h1, addLogS]⟩
    · exact ⟨[("分析正在进行中，请稍候", "warning")], by simp [h1, hbusy, addLogS]⟩
  have hbatch3 : jsTrim raw ≠ "" →
      ("分析正在进行中，请稍候", "warning") ∈ (analyzeBatchStocks raw cid st).1.logs := by
    intro h1
    unfold analyzeBatchStocks
    simp [h1, hbusy, addLogS]
  by_cases h1 : jsTrim inp.stockCode = ""
  · refine ⟨?_, ⟨[("请输入股票代码", "warning")], ?_⟩, ?_, hbatch2, hbatch1, hbatch3⟩
    · unfold analyzeSingleStock
      simp [h1]
    · unfold analyzeSingleStock
      simp [h1, addLogS]
    · intro hcode
      exact absurd h1 hcode
  · by_cases h2 : numTruthy inp.positionPercent = false
    · -- "not bought in" path: info log, then the busy guard fires
      refine ⟨?_, ⟨[("默认未买入", "info"), ("分析正在进行中，请稍候", "warning")], ?_⟩, ?_, hbatch2, hbatch1, hbatch3⟩
      · unfold analyzeSingleStock analyzeSingleStockGo
        simp [h1, h2, addLogS, hbusy]
      · unfold analyzeSingleStock analyzeSingleStockGo
        simp [h1, h2, addLogS, hbusy]
      · intro _ _
        unfold analyzeSingleStock analyzeSingleStockGo
        simp [h1, h2, addLogS, hbusy]
    · by_cases h3 : (numGtZero inp.positionPercent && !numTruthy inp.avgPrice) = true
      · refine ⟨?_, ⟨[("请输入持仓均价", "warning")], ?_⟩, ?_, hbatch2, hbatch1, hbatch3⟩
        · unfold analyzeSingleStock
          simp [h1, h2, h3]
        · unfold analyzeSingleStock
          simp [h1, h2, h3, addLogS]
        · intro _ hval
          rcases hval with hv | hv | hv
          · exact absurd hv h2
          · rw [hv] at h3
            simp at h3
          · rw [hv] at h3
            simp at h3
      · refine ⟨?_, ⟨[("分析正在进行中，请稍候", "warning")], ?_⟩, ?_, hbatch2, hbatch1, hbatch3⟩
        · unfold analyzeSingleStock analyzeSingleStockGo
          simp [h1, h2, h3, hbusy]
        · unfold analyzeSingleStock analyzeSingleStockGo
          simp [h1, h2, h3, hbusy, addLogS]
        · intro _ _
          unfold analyzeSingleStock analyzeSingleStockGo
          simp [h1, h2, h3, hbusy, addLogS]

/-- C4 (witness): a valid single submission and a valid batch list while
an analysis is in flight. -/
theorem c4_witness :
    busyState.isAnalyzing = true ∧
    (analyzeSingleStock inpNoPosition none busyState).2 = none ∧
    (analyzeBatchStocks "000001" none busyState).2 = none ∧
    ("分析正在进行中，请稍候", "warning") ∈ (analyzeSingleStock inpNoPosition none busyState).1.logs :=
  ⟨by decide,
    (c4_busy_guard inpNoPosition "000001" none busyState (by decide)).1,
    (c4_busy_guard inpNoPosition "000001" none busyState (by decide)).2.2.2.1,
    (c4_busy_guard inpNoPosition "000001" none busyState (by decide)).2.2.1 (by decide)
      (Or.inl (by decide))⟩

/-! ## Claim C8 -/

/-- C8: a single submission with a positive position percentage and an
empty (`NaN`) average price is rejected before any network call: no
request body is produced, exactly one warning log entry is appended, and
everything else — in particular `isAnalyzing` and the submit button —
is untouched. -/
theorem c8_position_requires_avg (inp : SingleInputs) (cid : Option String)
    (st : ClientState) (hpos : numGtZero inp.positionPercent = true)
    (hap : inp.avgPrice = none) :
    (analyzeSingleStock inp cid st).2 = none ∧
    (∃ w, (analyzeSingleStock inp cid st).1 = { st with logs := st.logs ++ [(w, "warning")] }) ∧
    (analyzeSingleStock inp cid st).1.isAnalyzing = st.isAnalyzing ∧
    (analyzeSingleStock inp cid st).1.analyzeBtnDisabled = st.analyzeBtnDisabled := by
  have htr : numTruthy inp.positionPercent = true := by
    cases hx : inp.positionPercent with
    | none =>
      rw [hx] at hpos
      exact absurd hpos (by decide)
    | some v =>
      rw [hx] at hpos
      simp [numTruthy, numGtZero, JsNum.gtZero, JsNum.isZero] at hpos ⊢
      omega
  by_cases h1 : jsTrim inp.stockCode = ""
  · have hmain : analyzeSingleStock inp cid st = (addLogS st "请输入股票代码" "warning", none) := by
      unfold analyzeSingleStock
      rw [if_pos h1]
    refine ⟨?_, ⟨"请输入股票代码", ?_⟩, ?_, ?_⟩ <;> rw [hmain] <;> rfl
  · have hmain : analyzeSingleStock inp cid st = (addLogS st "请输入持仓均价" "warning", none) := by
      unfold analyzeSingleStock
      rw [if_neg h1]
      rw [if_neg (by rw [htr]; decide)]
      rw [if_pos (by rw [hpos, hap]; decide)]
    refine ⟨?_, ⟨"请输入持仓均价", ?_⟩, ?_, ?_⟩ <;> rw [hmain] <;> rfl

/-- C8 (witness): position 50 percent with an empty average-price input,
from the idle page. -/
theorem c8_witness :
    numGtZero inpPositionNoAvg.positionPercent = true ∧
    inpPositionNoAvg.avgPrice = none ∧
    ((analyzeSingleStock inpPositionNoAvg none initialState).2 = none ∧
      (∃ w, (analyzeSingleStock inpPositionNoAvg none initialState).1
        = { initialState with logs := initialState.logs ++ [(w, "warning")] }) ∧
      (analyzeSingleStock inpPositionNoAvg none initialState).1.isAnalyzing
        = initialState.isAnalyzing ∧
      (analyzeSingleStock inpPositionNoAvg none initialState).1.analyzeBtnDisabled
        = initialState.analyzeBtnDisabled) :=
  ⟨by decide, by decide,
    c8_position_requires_avg inpPositionNoAvg none initialState (by decide) (by decide)⟩

end StockScanner
